import Mathlib

/-! # force-graph: interactive picking and render loop

A shallow embedding of `src/force-graph.js` (the Kapsule component that drives a
canvas force graph, its shadow canvas used for colour picking, the d3 zoom
transform and the `animate` frame loop), followed by theorems about it.

Conventions of the embedding

* JavaScript numbers are exact rationals (`ℚ`); `===` on numbers is equality.
  Canvas sizes are taken to be whole pixel counts, so storing them in a canvas
  element does not round them.
* JavaScript objects are identified by a reference (`ObjRef`, a natural number);
  `===` on objects compares references.
* Calls into collaborators (callbacks of the host, d3-zoom requests, the colour
  tracker, the canvas contexts) are recorded, in program order, in a list of
  `Effect`s returned next to the new state.
-/

namespace ForceGraph

/-! ## Data model -/

/-- Reference of a caller-supplied data object (a node or a link record). -/
abbrev ObjRef := Nat

/-- The two values of the `type` field handed to `colorTracker.register`: the strings
`'Node'` and `'Link'` of `graphData.onChange`. -/
inductive EntityType where
  | Node
  | Link
deriving DecidableEq, Repr

/-- The object `{ type, d }` registered with the colour tracker and returned by
`colorTracker.lookup`. `ref` is the identity of that wrapper object, `d` the
reference of the data object it wraps. -/
structure Entity where
  ref : Nat
  type : EntityType
  d : ObjRef
deriving DecidableEq, Repr

/-- The four bytes `getImageData(x, y, 1, 1).data` read from the shadow canvas. -/
structure Pixel where
  r : Nat
  g : Nat
  b : Nat
  a : Nat
deriving DecidableEq, Repr

/-- The d3 zoom transform `{ x, y, k }` attached to `state.canvas`. -/
structure Transform where
  x : ℚ
  y : ℚ
  k : ℚ
deriving DecidableEq

/-- A canvas element, of which only the `width` and `height` attributes matter. -/
structure CanvasElem where
  width : ℚ
  height : ℚ
deriving DecidableEq

/-- The value of the `graphData` property: `{ nodes, links }`, two arrays of object
references. -/
structure GraphData where
  nodes : List ObjRef
  links : List ObjRef
deriving DecidableEq, Repr

/-- Calls into collaborators, in the order the program makes them. -/
inductive Effect where
  /-- Call `colorTracker.lookup(shadowCtx.getImageData(...).data)`. -/
  | lookup (pixel : Pixel)
  /-- Call `colorTracker.register({ type, d })`. -/
  | register (e : Entity)
  /-- Call `state.onNodeHover(newD, oldD)`; `none` is `null`. -/
  | onNodeHover (newD oldD : Option ObjRef)
  /-- Call `state.onLinkHover(newD, oldD)`; `none` is `null`. -/
  | onLinkHover (newD oldD : Option ObjRef)
  /-- Call `state.onNodeClick(d)`. -/
  | onNodeClick (d : ObjRef)
  /-- Call `state.onLinkClick(d)`. -/
  | onLinkClick (d : ObjRef)
  /-- Write the tooltip element: visibility and `innerHTML`. -/
  | tooltip (visible : Bool) (content : String)
  /-- Call the throttled `refreshShadowCanvas()`. -/
  | refreshShadowCanvas
  /-- Call `ctx.clearRect(x, y, w, h)` on the visible canvas. -/
  | clearRect (x y w h : ℚ)
  /-- Call `state.forceGraph.globalScale(k).tickFrame()`. -/
  | tickFrame (globalScale : ℚ)
  /-- Call `requestAnimationFrame(animate)`. -/
  | requestAnimationFrame
  /-- Call `state.zoom.translateBy(elem, dx, dy)`. -/
  | translateBy (dx dy : ℚ)
  /-- Call `state.zoom.translateTo(elem, x, y)`. -/
  | translateTo (x y : ℚ)
  /-- Call `state.zoom.scaleTo(elem, k)`. -/
  | scaleTo (k : ℚ)
  /-- Call `console.info('force-graph loading', ...)` with the two counts. -/
  | consoleInfo (nodes links : Nat)
  /-- Call `state.forceGraph.graphData(d)`. -/
  | forceGraphData (d : GraphData)
  /-- Call `state.shadowGraph.graphData(d)`. -/
  | shadowGraphData (d : GraphData)
deriving DecidableEq

/-- The colour tracker of `object-color-tracker.js`, which is not part of the source
under study: it is a parameter of the embedding. `τ` is its internal state and `κ`
the type of the value `register` returns. -/
structure ColorTracker (τ κ : Type) where
  register : τ → Entity → κ × τ
  lookup : τ → Pixel → Option Entity

/-- The value of `state.hoverObj`: `undefined` until first assigned, then `null` or the
entity under the pointer. -/
inductive HoverObj where
  | undefined
  | null
  | entity (e : Entity)
deriving DecidableEq, Repr

/-- The Kapsule `state` object, restricted to the fields the source reads or writes.
`zoomTransform` is `d3ZoomTransform(state.canvas)`; `forceGraphData` and
`shadowGraphData` are the data last handed to the two `CanvasForceGraph`s. -/
structure State (τ : Type) where
  canvas : Option CanvasElem
  shadowCanvas : Option CanvasElem
  zoomTransform : Transform
  width : ℚ
  height : ℚ
  lastSetZoom : ℚ
  graphData : GraphData
  forceGraphData : GraphData
  shadowGraphData : GraphData
  colorTracker : τ
  nodeLabel : ObjRef → String
  linkLabel : ObjRef → String
  enablePointerInteraction : Bool
  hoverObj : HoverObj
  animationFrameRequestId : Option Nat

/-! ## Hover and click dispatch (`animate`, the click listener) -/

/-- The entity a hover value holds, if it holds one (`prevObj ? ... : null`). -/
def HoverObj.entity? : HoverObj → Option Entity
  | HoverObj.entity e => some e
  | _ => none

/-- The hover value a lookup result (`null` or an entity) is stored as. -/
def HoverObj.ofLookup : Option Entity → HoverObj
  | some e => HoverObj.entity e
  | none => HoverObj.null

/-- Reference comparison `obj === state.hoverObj` of a lookup result (`null` or an entity)
with the stored hover value. -/
def identical (obj : Option Entity) (hoverObj : HoverObj) : Bool :=
  match obj, hoverObj with
  | none, HoverObj.null => true
  | some o, HoverObj.entity p => o.ref == p.ref
  | _, _ => false

/-- The call that the template-string dispatch state[on‹type›Hover] resolves to. -/
def hoverCallback (t : EntityType) (newD oldD : Option ObjRef) : Effect :=
  match t with
  | EntityType.Node => Effect.onNodeHover newD oldD
  | EntityType.Link => Effect.onLinkHover newD oldD

/-- The call that the template-string dispatch state[on‹type›Click] resolves to. -/
def clickCallback (t : EntityType) (d : ObjRef) : Effect :=
  match t with
  | EntityType.Node => Effect.onNodeClick d
  | EntityType.Link => Effect.onLinkClick d

/-- The label accessor selected by state[‹type in lower case›Label]. -/
def labelOf {τ : Type} (s : State τ) (e : Entity) : String :=
  match e.type with
  | EntityType.Node => s.nodeLabel e.d
  | EntityType.Link => s.linkLabel e.d

/-- The two `if`s of lines 264-271: hover out of the previous entity when its type is
not the type of the new one, then hover in on the new entity. -/
def hoverTransition (prevObj obj : Option Entity) : List Effect :=
  let prevObjType := prevObj.map Entity.type
  let objType := obj.map Entity.type
  (match prevObj with
    | some p => if prevObjType ≠ objType then [hoverCallback p.type none (some p.d)] else []
    | none => []) ++
  (match obj with
    | some o =>
        [hoverCallback o.type (some o.d)
          (if prevObjType = objType then prevObj.map Entity.d else none)]
    | none => [])

/-- Lines 273-275: the tooltip shows the label of the new entity, hidden when empty. -/
def tooltipUpdate {τ : Type} (s : State τ) (obj : Option Entity) : Effect :=
  let tooltipContent := match obj with
    | some o => labelOf s o
    | none => ""
  Effect.tooltip (tooltipContent ≠ "") tooltipContent

/-- The block guarded by `state.enablePointerInteraction` in `animate` (lines 253-281). -/
def pointerPhase {τ κ : Type} (ct : ColorTracker τ κ) (s : State τ) (pixel : Pixel) :
    State τ × List Effect :=
  if s.enablePointerInteraction then
    let obj := ct.lookup s.colorTracker pixel
    if identical obj s.hoverObj then
      (s, [Effect.lookup pixel, Effect.refreshShadowCanvas])
    else
      ({ s with hoverObj := HoverObj.ofLookup obj },
        [Effect.lookup pixel] ++ hoverTransition s.hoverObj.entity? obj ++ [tooltipUpdate s obj]
          ++ [Effect.refreshShadowCanvas])
  else
    (s, [])

/-- Lines 283-290 of `animate`: wipe the visible canvas, tick the force graph and
schedule the next frame; `frameId` is the handle `requestAnimationFrame` returns. -/
def drawPhase {τ : Type} (s : State τ) (frameId : Nat) : State τ × List Effect :=
  let t := s.zoomTransform
  ({ s with animationFrameRequestId := some frameId },
    [Effect.clearRect (-t.x / t.k) (-t.y / t.k) (s.width / t.k) (s.height / t.k),
     Effect.tickFrame t.k,
     Effect.requestAnimationFrame])

/-- One run of `animate`. `pixel` is what the shadow canvas holds under the pointer. -/
def animate {τ κ : Type} (ct : ColorTracker τ κ) (s : State τ) (pixel : Pixel)
    (frameId : Nat) : State τ × List Effect :=
  let p := pointerPhase ct s pixel
  let q := drawPhase p.1 frameId
  (q.1, p.2 ++ q.2)

/-- The `click` listener of `domNode` (lines 228-232). -/
def click {τ : Type} (s : State τ) : State τ × List Effect :=
  match s.hoverObj with
  | HoverObj.entity h => (s, [clickCallback h.type h.d])
  | _ => (s, [])

/-- Setter of the `enablePointerInteraction` property: Kapsule stores the value, then
runs `onChange`, which resets `state.hoverObj`. -/
def setEnablePointerInteraction {τ : Type} (s : State τ) (v : Bool) : State τ :=
  { s with enablePointerInteraction := v, hoverObj := HoverObj.null }

/-- Whether an effect is a call of `onNodeHover` or `onLinkHover`. -/
def Effect.isHover : Effect → Bool
  | Effect.onNodeHover _ _ => true
  | Effect.onLinkHover _ _ => true
  | _ => false

/-- Whether an effect is a call of `onNodeClick` or `onLinkClick`. -/
def Effect.isClick : Effect → Bool
  | Effect.onNodeClick _ => true
  | Effect.onLinkClick _ => true
  | _ => false

/-- Whether an effect is a call of one of the four host callbacks. -/
def Effect.isCallback (e : Effect) : Bool :=
  e.isHover || e.isClick

/-- The host callbacks among a list of effects, in order. -/
def callbacks (fx : List Effect) : List Effect :=
  fx.filter Effect.isCallback

/-! ## The d3-zoom behaviour

`d3-zoom` is a library the source calls; the three requests it receives are modelled
after the library's documented behaviour, with the default extent of a canvas element
(`[[0, 0], [width, height]]`) and the default, unbounded translate extent. -/

/-- Lower bound of `scaleExtent([0.01, 1000])` (line 179). -/
def scaleExtentMin : ℚ := 1 / 100

/-- Upper bound of `scaleExtent([0.01, 1000])` (line 179). -/
def scaleExtentMax : ℚ := 1000

/-- Clamping of a requested scale to the scale extent. -/
def clampScale (k : ℚ) : ℚ :=
  max scaleExtentMin (min scaleExtentMax k)

/-- The request `zoom.translateBy(elem, dx, dy)`: the translation moves by `k * dx`, `k * dy`. -/
def d3TranslateBy (t : Transform) (dx dy : ℚ) : Transform :=
  { x := t.x + t.k * dx, y := t.y + t.k * dy, k := t.k }

/-- The request `zoom.translateTo(elem, x, y)`: graph point `(x, y)` goes to the centre of
the element, the scale is kept. -/
def d3TranslateTo (e : CanvasElem) (t : Transform) (x y : ℚ) : Transform :=
  { x := e.width / 2 - t.k * x, y := e.height / 2 - t.k * y, k := t.k }

/-- The request `zoom.scaleTo(elem, k)`: the scale becomes `k` clamped to the scale extent,
the graph point at the centre of the element stays there. -/
def d3ScaleTo (e : CanvasElem) (t : Transform) (k : ℚ) : Transform :=
  let k1 := clampScale k
  let p1x := (e.width / 2 - t.x) / t.k
  let p1y := (e.height / 2 - t.y) / t.k
  { x := e.width / 2 - p1x * k1, y := e.height / 2 - p1y * k1, k := k1 }

/-- A pan or zoom gesture of the user: d3-zoom replaces the transform of the canvas. No
listener of the source reacts to it other than by re-applying the transform to the two
drawing contexts. -/
def userGesture {τ : Type} (s : State τ) (t : Transform) : State τ :=
  { s with zoomTransform := t }

/-! ## Viewport (`adjustCanvasSize`, `centerAt`, `zoom`, the `onFinishLoading` handler) -/

/-- The constant `ZOOM2NODES_FACTOR`. -/
def ZOOM2NODES_FACTOR : ℚ := 4

/-- The function `adjustCanvasSize(state)` (lines 47-68). -/
def adjustCanvasSize {τ : Type} (s : State τ) : State τ × List Effect :=
  match s.canvas with
  | some canvas =>
    let isDefault : Bool := canvas.width = 300 ∧ canvas.height = 150
    let curWidth := if isDefault then 0 else canvas.width
    let curHeight := if isDefault then 0 else canvas.height
    let resized : CanvasElem := { width := s.width, height := s.height }
    let k := s.zoomTransform.k
    let dx := (s.width - curWidth) / 2 / k
    let dy := (s.height - curHeight) / 2 / k
    ({ s with
        canvas := some resized
        shadowCanvas := s.shadowCanvas.map (fun _ => resized)
        zoomTransform := d3TranslateBy s.zoomTransform dx dy },
      [Effect.translateBy dx dy])
  | none => (s, [])

/-- Setter of the `width` property: Kapsule stores the value, then runs `onChange`. -/
def setWidth {τ : Type} (s : State τ) (w : ℚ) : State τ × List Effect :=
  adjustCanvasSize { s with width := w }

/-- Setter of the `height` property: Kapsule stores the value, then runs `onChange`. -/
def setHeight {τ : Type} (s : State τ) (h : ℚ) : State τ × List Effect :=
  adjustCanvasSize { s with height := h }

/-- What a method of the component returns: `null`, the component itself (`this`), or a
value of type `α`. -/
inductive MethodResult (α : Type) where
  | null
  | this
  | value (v : α)
deriving DecidableEq

/-- The method `centerAt(x, y)` (lines 111-125); `none` is an argument left `undefined`. -/
def centerAt {τ : Type} (s : State τ) (x y : Option ℚ) :
    MethodResult (ℚ × ℚ) × State τ × List Effect :=
  match s.canvas with
  | none => (MethodResult.null, s, [])
  | some canvas =>
    let t := s.zoomTransform
    if x.isSome ∨ y.isSome then
      let ax := match x with
        | none => t.x
        | some v => v
      let ay := match y with
        | none => t.y
        | some v => v
      (MethodResult.this, { s with zoomTransform := d3TranslateTo canvas t ax ay },
        [Effect.translateTo ax ay])
    else
      (MethodResult.value ((s.width / 2 - t.x) / t.k, (s.height / 2 - t.y) / t.k), s, [])

/-- The method `zoom(k)` (lines 126-135); `none` is an argument left `undefined`. -/
def zoom {τ : Type} (s : State τ) (k : Option ℚ) : MethodResult ℚ × State τ × List Effect :=
  match s.canvas with
  | none => (MethodResult.null, s, [])
  | some canvas =>
    match k with
    | some k =>
      (MethodResult.this, { s with zoomTransform := d3ScaleTo canvas s.zoomTransform k },
        [Effect.scaleTo k])
    | none => (MethodResult.value s.zoomTransform.k, s, [])

/-- The handler passed to `state.forceGraph.onFinishLoading` (lines 191-198). `cbrt` stands
for `Math.cbrt` on the node count. The handler exists once `init` has created the canvas;
without a canvas `d3ZoomTransform(state.canvas)` raises, which is `none`. For an empty graph
the quotient is `Infinity` in JavaScript, a value `ℚ` lacks; the control flow is the same, and
nothing below relies on the value of a quotient by zero. -/
def onFinishLoading {τ : Type} (cbrt : Nat → ℚ) (s : State τ) : Option (State τ × List Effect) :=
  match s.canvas with
  | none => none
  | some canvas =>
    if s.zoomTransform.k = s.lastSetZoom then
      let k := ZOOM2NODES_FACTOR / cbrt s.forceGraphData.nodes.length
      some ({ s with lastSetZoom := k, zoomTransform := d3ScaleTo canvas s.zoomTransform k },
        [Effect.scaleTo k])
    else
      some (s, [])

/-- The state before `init`: the values of `stateInit` and the property defaults the source
gives; `innerWidth`, `innerHeight` are the window sizes, and the tracker starts as `tr`.
Neither assigns `hoverObj`, which is `undefined` until a setter or a frame writes it. -/
def stateInit {τ : Type} (tr : τ) (innerWidth innerHeight : ℚ) (labels : ObjRef → String) :
    State τ :=
  { canvas := none
    shadowCanvas := none
    zoomTransform := { x := 0, y := 0, k := 1 }
    width := innerWidth
    height := innerHeight
    lastSetZoom := 1
    graphData := { nodes := [], links := [] }
    forceGraphData := { nodes := [], links := [] }
    shadowGraphData := { nodes := [], links := [] }
    colorTracker := tr
    nodeLabel := labels
    linkLabel := labels
    enablePointerInteraction := true
    hoverObj := HoverObj.undefined
    animationFrameRequestId := none }

/-- The part of `init` that sets up the canvases (lines 159-189): two fresh canvas elements
of the default size 300 x 150, the identity transform, then `adjustCanvasSize`. -/
def init {τ : Type} (s : State τ) : State τ × List Effect :=
  adjustCanvasSize
    { s with
      canvas := some { width := 300, height := 150 }
      shadowCanvas := some { width := 300, height := 150 }
      zoomTransform := { x := 0, y := 0, k := 1 } }

/-- The graph-space point shown at the centre of a surface of size `w` x `h` under the
transform `t`: the point `((w / 2 - t.x) / t.k, (h / 2 - t.y) / t.k)`. -/
def viewCentre (w h : ℚ) (t : Transform) : ℚ × ℚ :=
  ((w / 2 - t.x) / t.k, (h / 2 - t.y) / t.k)

/-! ## Data loading (`graphData.onChange`, `hexIndex`) -/

/-- The part of the JavaScript heap the source touches outside `state`: the own property
`__indexColor` of every data object (`none` when `hasOwnProperty` is false) and the number
of `{ type, d }` wrapper objects created so far, which names the next one. -/
structure Heap (κ : Type) where
  indexColor : ObjRef → Option κ
  allocated : Nat

/-- The `forEach` of `hexIndex` (lines 90-93): register each object of the list in turn and
store the returned colour on it. -/
def registerEach {τ κ : Type} (ct : ColorTracker τ κ) (type : EntityType) :
    List ObjRef → τ → Heap κ → τ × Heap κ × List Effect
  | [], tr, h => (tr, h, [])
  | d :: ds, tr, h =>
    let e : Entity := { ref := h.allocated, type := type, d := d }
    let r := ct.register tr e
    let rest := registerEach ct type ds r.2
      { indexColor := Function.update h.indexColor d (some r.1), allocated := h.allocated + 1 }
    (rest.1, rest.2.1, Effect.register e :: rest.2.2)

/-- The function `hexIndex({ type, objs })` (lines 87-94): the objects without an own
`__indexColor` are selected first, then registered. -/
def hexIndex {τ κ : Type} (ct : ColorTracker τ κ) (type : EntityType) (objs : List ObjRef)
    (tr : τ) (h : Heap κ) : τ × Heap κ × List Effect :=
  registerEach ct type (objs.filter (fun d => (h.indexColor d).isNone)) tr h

/-- Setter of the `graphData` property: Kapsule stores the value, then runs `onChange`
(lines 78-95). -/
def setGraphData {τ κ : Type} (ct : ColorTracker τ κ) (d : GraphData) (s : State τ)
    (h : Heap κ) : State τ × Heap κ × List Effect :=
  let info :=
    if d.nodes.length ≠ 0 ∨ d.links.length ≠ 0 then
      [Effect.consoleInfo d.nodes.length d.links.length]
    else []
  let n := hexIndex ct EntityType.Node d.nodes s.colorTracker h
  let l := hexIndex ct EntityType.Link d.links n.1 n.2.1
  ({ s with graphData := d, colorTracker := l.1, forceGraphData := d, shadowGraphData := d },
    l.2.1,
    info ++ n.2.2 ++ l.2.2 ++ [Effect.forceGraphData d, Effect.shadowGraphData d])

/-- Whether an effect is a call of `colorTracker.register`. -/
def Effect.isRegister : Effect → Bool
  | Effect.register _ => true
  | _ => false

/-- Number of `colorTracker.register` calls among a list of effects. -/
def registerCalls (fx : List Effect) : Nat :=
  (fx.filter Effect.isRegister).length

/-- Number of distinct objects of two assignments taken together. -/
def distinctEntities (d1 d2 : GraphData) : Nat :=
  (d1.nodes ++ d1.links ++ d2.nodes ++ d2.links).toFinset.card

/-! ## Orders of effects -/

/-- Whether an effect is a call of `colorTracker.lookup`. -/
def Effect.isLookup : Effect → Bool
  | Effect.lookup _ => true
  | _ => false

/-- Whether an effect belongs to the drawing of the visible scene: the `clearRect` of the
visible canvas or the `tickFrame` of the force graph. -/
def Effect.isDraw : Effect → Bool
  | Effect.clearRect _ _ _ _ => true
  | Effect.tickFrame _ => true
  | _ => false

/-- Whether an effect belongs to picking: the pixel lookup, a hover callback or the request
to redraw the shadow canvas. -/
def Effect.isPick : Effect → Bool
  | Effect.lookup _ => true
  | Effect.onNodeHover _ _ => true
  | Effect.onLinkHover _ _ => true
  | Effect.refreshShadowCanvas => true
  | _ => false

/-- In the list of effects `fx`, every effect satisfying `p` occurs at a smaller position
than every effect satisfying `q`. -/
def precedes (p q : Effect → Bool) (fx : List Effect) : Prop :=
  ∀ i j : Nat, (∃ a, fx[i]? = some a ∧ p a = true) → (∃ b, fx[j]? = some b ∧ q b = true) → i < j

/-! ## Concrete data used to exercise the definitions -/

/-- Modelled from the spec: the Color Registry of `object-color-tracker.js`, which is not
among the sources. Keys come from a monotonic counter starting at 1 (0, all black, is the
background), a pixel decodes to the key `r * 65536 + g * 256 + b`, and `lookup` returns
the entity registered under that key or `null`. -/
def counterTracker : ColorTracker (List Entity) Nat :=
  { register := fun registry e => (registry.length + 1, registry ++ [e])
    lookup := fun registry px =>
      let key := px.r * 65536 + px.g * 256 + px.b
      if key = 0 then none else registry[key - 1]? }

/-- A state after `init` on an 800 x 600 surface, with two nodes and one link registered,
pointer interaction enabled and the given hover value. -/
def sampleState (hoverObj : HoverObj) : State (List Entity) :=
  { canvas := some { width := 800, height := 600 }
    shadowCanvas := some { width := 800, height := 600 }
    zoomTransform := { x := 400, y := 300, k := 1 }
    width := 800
    height := 600
    lastSetZoom := 1
    graphData := { nodes := [10, 11], links := [20] }
    forceGraphData := { nodes := [10, 11], links := [20] }
    shadowGraphData := { nodes := [10, 11], links := [20] }
    colorTracker :=
      [{ ref := 0, type := EntityType.Node, d := 10 },
       { ref := 1, type := EntityType.Node, d := 11 },
       { ref := 2, type := EntityType.Link, d := 20 }]
    nodeLabel := fun _ => "node"
    linkLabel := fun _ => ""
    enablePointerInteraction := true
    hoverObj := hoverObj
    animationFrameRequestId := none }

/-- The pixel whose colour is key `n` (for `n < 256`). -/
def keyPixel (n : Nat) : Pixel :=
  { r := 0, g := 0, b := n, a := 255 }

/-- A rational stand-in for `Math.cbrt` in examples: the integer cube root, exact on
perfect cubes. -/
def cubeRoot (n : Nat) : ℚ :=
  (Nat.findGreatest (fun r => r * r * r ≤ n) n : Nat)

/-- A heap on which no data object carries `__indexColor` and no wrapper exists yet. -/
def freshHeap : Heap Nat :=
  { indexColor := fun _ => none, allocated := 0 }

/-- The state after `init` on a 300 x 150 window, the size a canvas element has by default. -/
def smallState : State (List Entity) :=
  (init (stateInit ([] : List Entity) 300 150 (fun _ => ""))).1

/-- The state after `init` on an 800 x 600 window followed by the load of eight nodes. -/
def loadedState : State (List Entity) :=
  (setGraphData counterTracker { nodes := [1, 2, 3, 4, 5, 6, 7, 8], links := [] }
    (init (stateInit ([] : List Entity) 800 600 (fun _ => ""))).1 freshHeap).1

/-- The state after `init` on an 800 x 600 window, before any data is loaded. -/
def startState : State (List Entity) :=
  (init (stateInit ([] : List Entity) 800 600 (fun _ => ""))).1

/-- An assignment whose node list holds the same object twice. -/
def repeatedNode : GraphData :=
  { nodes := [7, 7], links := [] }

/-- An assignment of one node, the object of `repeatedNode`. -/
def singleNode : GraphData :=
  { nodes := [7], links := [] }

/-- A first assignment: two nodes and a link. -/
def firstLoad : GraphData :=
  { nodes := [1, 2], links := [3] }

/-- A second assignment sharing node 2 and link 3 with `firstLoad`. -/
def secondLoad : GraphData :=
  { nodes := [2, 4], links := [3, 5] }

/-! # Theorems -/

/-! ## Hover and click dispatch -/

theorem callbacks_animate {τ κ : Type} (ct : ColorTracker τ κ) (s : State τ) (pixel : Pixel)
    (frameId : Nat) (henabled : s.enablePointerInteraction = true)
    (hne : identical (ct.lookup s.colorTracker pixel) s.hoverObj = false) :
    callbacks (animate ct s pixel frameId).2
      = callbacks (hoverTransition s.hoverObj.entity? (ct.lookup s.colorTracker pixel)) := by
  simp [animate, pointerPhase, drawPhase, henabled, hne, callbacks, List.filter_append,
    List.filter_cons, Effect.isCallback, Effect.isHover, Effect.isClick, tooltipUpdate]

theorem callbacks_hoverCallback (t : EntityType) (a b : Option ObjRef) :
    Effect.isCallback (hoverCallback t a b) = true := by
  cases t <;> rfl

/-- C1: in a frame of `animate` with pointer interaction enabled where the resolved entity
is not identical to the stored hover value: when the previous entity exists and its type
differs from the type of the resolved one (or nothing is resolved), the hover callback of
the previous type is called with `(null, prev.d)` and then, if an entity is resolved, the
hover callback of its type with `(obj.d, null)`; when both exist with the same type, the
only callback is the hover callback of that type with `(obj.d, prev.d)`; when there is no
previous entity, the only callback is the hover-in with `(obj.d, null)`, if any. -/
theorem hover_transition_callbacks {τ κ : Type} (ct : ColorTracker τ κ) (s : State τ)
    (pixel : Pixel) (frameId : Nat) (henabled : s.enablePointerInteraction = true)
    (hne : identical (ct.lookup s.colorTracker pixel) s.hoverObj = false) :
    (∀ p, s.hoverObj = HoverObj.entity p →
        (ct.lookup s.colorTracker pixel).map Entity.type ≠ some p.type →
        callbacks (animate ct s pixel frameId).2
          = hoverCallback p.type none (some p.d) ::
            (match ct.lookup s.colorTracker pixel with
              | some o => [hoverCallback o.type (some o.d) none]
              | none => [])) ∧
    (∀ p o, s.hoverObj = HoverObj.entity p → ct.lookup s.colorTracker pixel = some o →
        o.type = p.type →
        callbacks (animate ct s pixel frameId).2
          = [hoverCallback o.type (some o.d) (some p.d)]) ∧
    (s.hoverObj.entity? = none →
        callbacks (animate ct s pixel frameId).2
          = (match ct.lookup s.colorTracker pixel with
              | some o => [hoverCallback o.type (some o.d) none]
              | none => [])) := by
  rw [callbacks_animate ct s pixel frameId henabled hne]
  refine ⟨?_, ?_, ?_⟩
  · intro p hp hty
    rw [hp]
    cases hobj : ct.lookup s.colorTracker pixel with
    | none =>
      simp [hoverTransition, HoverObj.entity?, callbacks, callbacks_hoverCallback]
    | some o =>
      have hty2 : ¬ p.type = o.type := by
        intro h
        apply hty
        simp [hobj, h]
      simp [hoverTransition, HoverObj.entity?, callbacks, callbacks_hoverCallback, hty2]
  · intro p o hp hobj hty
    rw [hp, hobj]
    simp [hoverTransition, HoverObj.entity?, callbacks, callbacks_hoverCallback, hty]
  · intro hprev
    rw [hprev]
    cases hobj : ct.lookup s.colorTracker pixel with
    | none => simp [hoverTransition, callbacks]
    | some o => simp [hoverTransition, callbacks, callbacks_hoverCallback]

/-- The theorem of C1 at a frame that moves from node 10 to the link 20. -/
theorem hover_transition_callbacks_witness :
    (sampleState (HoverObj.entity { ref := 0, type := EntityType.Node, d := 10 })).enablePointerInteraction
        = true ∧
    identical
        (counterTracker.lookup
          (sampleState (HoverObj.entity { ref := 0, type := EntityType.Node, d := 10 })).colorTracker
          (keyPixel 3))
        (sampleState (HoverObj.entity { ref := 0, type := EntityType.Node, d := 10 })).hoverObj
      = false ∧
    callbacks
        (animate counterTracker
          (sampleState (HoverObj.entity { ref := 0, type := EntityType.Node, d := 10 }))
          (keyPixel 3) 1).2
      = [Effect.onNodeHover none (some 10), Effect.onLinkHover (some 20) none] :=
  ⟨rfl, rfl,
    (hover_transition_callbacks counterTracker
      (sampleState (HoverObj.entity { ref := 0, type := EntityType.Node, d := 10 }))
      (keyPixel 3) 1 rfl rfl).1 { ref := 0, type := EntityType.Node, d := 10 } rfl (by decide)⟩

/-- C2: a click leaves the state, `state.hoverObj` included, as it is and performs no
lookup; it dispatches nothing when `state.hoverObj` holds no entity, and otherwise exactly
one callback, `onNodeClick` for a node and `onLinkClick` for a link, with the data of the
stored hover entity. -/
theorem click_dispatch {τ : Type} (s : State τ) :
    (click s).1 = s ∧
    (∀ e ∈ (click s).2, e.isLookup = false) ∧
    (click s).2 =
      (match s.hoverObj with
        | HoverObj.undefined => []
        | HoverObj.null => []
        | HoverObj.entity { ref := _, type := EntityType.Node, d := d } => [Effect.onNodeClick d]
        | HoverObj.entity { ref := _, type := EntityType.Link, d := d } =>
            [Effect.onLinkClick d]) := by
  unfold click
  cases h : s.hoverObj with
  | undefined => simp
  | null => simp
  | entity e =>
    obtain ⟨r, t, d⟩ := e
    cases t <;> simp [clickCallback, Effect.isLookup]

/-- C8: once `enablePointerInteraction` has been set to `false`, `state.hoverObj` is `null`;
the next frame of `animate` only clears, ticks and reschedules (no hover callback, no lookup,
no shadow redraw request) and leaves `state.hoverObj` `null`, and a click after it
dispatches nothing. -/
theorem disabled_pointer_frame {τ κ : Type} (ct : ColorTracker τ κ) (s : State τ)
    (pixel : Pixel) (frameId : Nat) :
    (setEnablePointerInteraction s false).hoverObj = HoverObj.null ∧
    (animate ct (setEnablePointerInteraction s false) pixel frameId).1.hoverObj
      = HoverObj.null ∧
    (animate ct (setEnablePointerInteraction s false) pixel frameId).2
      = [Effect.clearRect (-s.zoomTransform.x / s.zoomTransform.k)
            (-s.zoomTransform.y / s.zoomTransform.k) (s.width / s.zoomTransform.k)
            (s.height / s.zoomTransform.k),
          Effect.tickFrame s.zoomTransform.k, Effect.requestAnimationFrame] ∧
    (∀ e ∈ (animate ct (setEnablePointerInteraction s false) pixel frameId).2,
      e.isHover = false ∧ e.isLookup = false ∧ e ≠ Effect.refreshShadowCanvas) ∧
    (click (animate ct (setEnablePointerInteraction s false) pixel frameId).1).2 = [] := by
  simp [setEnablePointerInteraction, animate, pointerPhase, drawPhase, click, Effect.isHover,
    Effect.isLookup]

/-! ## Order of effects within a frame -/

theorem precedes_append (p q : Effect → Bool) (l1 l2 : List Effect)
    (h1 : ∀ e ∈ l1, q e = false) (h2 : ∀ e ∈ l2, p e = false) :
    precedes p q (l1 ++ l2) := by
  intro i j hi hj
  obtain ⟨a, ha, hpa⟩ := hi
  obtain ⟨b, hb, hqb⟩ := hj
  by_contra hij
  have hji : j ≤ i := Nat.le_of_not_lt hij
  by_cases hj1 : j < l1.length
  · rw [List.getElem?_append_left hj1] at hb
    have hmem : b ∈ l1 := List.mem_iff_getElem?.mpr ⟨_, hb⟩
    rw [h1 b hmem] at hqb
    exact Bool.false_ne_true hqb
  · have hi1 : l1.length ≤ i := by omega
    rw [List.getElem?_append_right hi1] at ha
    have hmem : a ∈ l2 := List.mem_iff_getElem?.mpr ⟨_, ha⟩
    rw [h2 a hmem] at hpa
    exact Bool.false_ne_true hpa

theorem isDraw_hoverCallback (t : EntityType) (a b : Option ObjRef) :
    Effect.isDraw (hoverCallback t a b) = false := by
  cases t <;> rfl

theorem hoverTransition_no_draw (prevObj obj : Option Entity) :
    ∀ e ∈ hoverTransition prevObj obj, Effect.isDraw e = false := by
  intro e he
  unfold hoverTransition at he
  rw [List.mem_append] at he
  rcases he with he | he
  · rcases prevObj with _ | p
    · simp at he
    · dsimp only at he
      split_ifs at he
      · rw [List.mem_singleton] at he
        rw [he]
        exact isDraw_hoverCallback _ _ _
      · simp at he
  · rcases obj with _ | o
    · simp at he
    · dsimp only at he
      rw [List.mem_singleton] at he
      rw [he]
      exact isDraw_hoverCallback _ _ _

theorem pointerPhase_no_draw {τ κ : Type} (ct : ColorTracker τ κ) (s : State τ)
    (pixel : Pixel) : ∀ e ∈ (pointerPhase ct s pixel).2, Effect.isDraw e = false := by
  intro e he
  simp only [pointerPhase] at he
  split_ifs at he
  · simp only [List.mem_cons, List.mem_singleton, List.not_mem_nil, or_false] at he
    rcases he with rfl | rfl <;> rfl
  · simp only [List.mem_append, List.mem_singleton] at he
    rcases he with ((rfl | he) | rfl) | rfl
    · rfl
    · exact hoverTransition_no_draw _ _ e he
    · rfl
    · rfl
  · simp at he

/-- C7 as amended: in a frame of `animate` with pointer interaction enabled the trace holds a
lookup, a shadow redraw request, a `clearRect` and a `tickFrame`, and the lookup, every hover
callback and the shadow redraw request occur before the `clearRect` and the `tickFrame` of
the visible scene. -/
theorem pick_precedes_draw {τ κ : Type} (ct : ColorTracker τ κ) (s : State τ) (pixel : Pixel)
    (frameId : Nat) (henabled : s.enablePointerInteraction = true) :
    Effect.lookup pixel ∈ (animate ct s pixel frameId).2 ∧
    Effect.refreshShadowCanvas ∈ (animate ct s pixel frameId).2 ∧
    (∃ e ∈ (animate ct s pixel frameId).2, ∃ x y w h, e = Effect.clearRect x y w h) ∧
    (∃ e ∈ (animate ct s pixel frameId).2, ∃ k, e = Effect.tickFrame k) ∧
    precedes Effect.isPick Effect.isDraw (animate ct s pixel frameId).2 := by
  refine ⟨?_, ?_, ?_, ?_, ?_⟩
  · simp only [animate, pointerPhase, henabled, if_true]
    split <;> simp
  · simp only [animate, pointerPhase, henabled, if_true]
    split <;> simp
  · exact ⟨_, List.mem_append_right _ (List.mem_cons_self _ _), _, _, _, _, rfl⟩
  · exact ⟨_, List.mem_append_right _ (List.mem_cons_of_mem _ (List.mem_cons_self _ _)), _, rfl⟩
  · unfold animate
    apply precedes_append
    · exact pointerPhase_no_draw ct s pixel
    · intro e he
      simp [drawPhase] at he
      rcases he with rfl | rfl | rfl <;> rfl

/-- The theorem of C7 at a frame that moves from node 10 to the link 20. -/
theorem pick_precedes_draw_witness :
    (sampleState (HoverObj.entity { ref := 0, type := EntityType.Node, d := 10 })).enablePointerInteraction
        = true ∧
    precedes Effect.isPick Effect.isDraw
      (animate counterTracker
        (sampleState (HoverObj.entity { ref := 0, type := EntityType.Node, d := 10 }))
        (keyPixel 3) 1).2 :=
  ⟨rfl,
    (pick_precedes_draw counterTracker
      (sampleState (HoverObj.entity { ref := 0, type := EntityType.Node, d := 10 }))
      (keyPixel 3) 1 rfl).2.2.2.2⟩

/-- C7 as stated fails: in the frame that moves from node 10 to the link 20, with pointer
interaction enabled, the lookup is the first effect and the `clearRect` of the visible canvas
comes after it, so the drawing of the visible scene does not precede the pick. -/
theorem draw_precedes_pick_counterexample :
    (sampleState (HoverObj.entity { ref := 0, type := EntityType.Node, d := 10 })).enablePointerInteraction
        = true ∧
    (animate counterTracker
        (sampleState (HoverObj.entity { ref := 0, type := EntityType.Node, d := 10 }))
        (keyPixel 3) 1).2
      = [Effect.lookup (keyPixel 3), Effect.onNodeHover none (some 10),
          Effect.onLinkHover (some 20) none, Effect.tooltip false "",
          Effect.refreshShadowCanvas,
          Effect.clearRect (-400 / 1) (-300 / 1) (800 / 1) (600 / 1), Effect.tickFrame 1,
          Effect.requestAnimationFrame] ∧
    ¬ precedes Effect.isDraw Effect.isPick
      (animate counterTracker
        (sampleState (HoverObj.entity { ref := 0, type := EntityType.Node, d := 10 }))
        (keyPixel 3) 1).2 := by
  refine ⟨rfl, ?_, ?_⟩
  · rfl
  · intro h
    have h50 := h 5 0 ⟨_, rfl, rfl⟩ ⟨_, rfl, rfl⟩
    omega

/-! ## Absent canvas -/

/-- C9: while `state.canvas` does not exist, `centerAt` and `zoom` return `null` for every
combination of arguments, request nothing from d3-zoom and leave the state as it is, and
`adjustCanvasSize` changes nothing. -/
theorem no_canvas_noop {τ : Type} (s : State τ) (x y k : Option ℚ) (hcanvas : s.canvas = none) :
    centerAt s x y = (MethodResult.null, s, []) ∧
    zoom s k = (MethodResult.null, s, []) ∧
    adjustCanvasSize s = (s, []) := by
  simp [centerAt, zoom, adjustCanvasSize, hcanvas]

/-- The theorem of C9 at the state before `init`, for the setter forms. -/
theorem no_canvas_noop_witness :
    (stateInit ([] : List Entity) 800 600 (fun _ => "")).canvas = none ∧
    centerAt (stateInit ([] : List Entity) 800 600 (fun _ => "")) (some 5) none
      = (MethodResult.null, stateInit ([] : List Entity) 800 600 (fun _ => ""), []) ∧
    zoom (stateInit ([] : List Entity) 800 600 (fun _ => "")) (some 2)
      = (MethodResult.null, stateInit ([] : List Entity) 800 600 (fun _ => ""), []) ∧
    adjustCanvasSize (stateInit ([] : List Entity) 800 600 (fun _ => ""))
      = (stateInit ([] : List Entity) 800 600 (fun _ => ""), []) :=
  ⟨rfl, no_canvas_noop (stateInit ([] : List Entity) 800 600 (fun _ => "")) (some 5) none
    (some 2) rfl⟩

/-! ## Viewport -/

/-- C4 as amended: for a transform with `k > 0` and a current canvas size other than the
default 300 x 150, after `adjustCanvasSize` the graph-space point at the centre of the
resized surface is the one that was at the centre before the resize. -/
theorem resize_keeps_centre {τ : Type} (s : State τ) (c : CanvasElem)
    (hk : 0 < s.zoomTransform.k) (hc : s.canvas = some c)
    (hsize : ¬ (c.width = 300 ∧ c.height = 150)) :
    viewCentre s.width s.height (adjustCanvasSize s).1.zoomTransform
      = viewCentre c.width c.height s.zoomTransform := by
  have hk0 : s.zoomTransform.k ≠ 0 := ne_of_gt hk
  simp only [adjustCanvasSize, hc, viewCentre, d3TranslateBy, hsize, decide_False,
    Bool.false_eq_true, if_false, Prod.mk.injEq]
  constructor <;> field_simp <;> ring

/-- The theorem of C4 at a resize of the 800 x 600 surface to 1000 x 700. -/
theorem resize_keeps_centre_witness :
    0 < (sampleState HoverObj.null).zoomTransform.k ∧
    (sampleState HoverObj.null).canvas = some { width := 800, height := 600 } ∧
    ¬ ((800 : ℚ) = 300 ∧ (600 : ℚ) = 150) ∧
    viewCentre 1000 700
        (adjustCanvasSize { sampleState HoverObj.null with width := 1000, height := 700 }).1.zoomTransform
      = viewCentre 800 600 (sampleState HoverObj.null).zoomTransform :=
  ⟨by simp [sampleState], rfl, by norm_num,
    resize_keeps_centre { sampleState HoverObj.null with width := 1000, height := 700 }
      { width := 800, height := 600 } (by simp [sampleState]) rfl (by norm_num)⟩

/-- C4 as stated fails: on a surface whose canvas is 300 x 150 (the state after `init` on a
300 x 150 window), with scale 1, storing the width 600 and running `adjustCanvasSize` treats
the current size as 0 x 0; the centre of the surface showed the graph point (0, 0) before and
shows (-150, -75) after. -/
theorem resize_centre_counterexample :
    0 < smallState.zoomTransform.k ∧
    smallState.canvas = some { width := 300, height := 150 } ∧
    viewCentre 300 150 smallState.zoomTransform = (0, 0) ∧
    viewCentre 600 150 (adjustCanvasSize { smallState with width := 600 }).1.zoomTransform
      = (-150, -75) ∧
    viewCentre 600 150 (adjustCanvasSize { smallState with width := 600 }).1.zoomTransform
      ≠ viewCentre 300 150 smallState.zoomTransform := by
  norm_num [smallState, init, stateInit, adjustCanvasSize, d3TranslateBy, viewCentre]

/-- C10, evaluated: on the 800 x 600 surface with transform `(400, 300, 1)` the getter
`centerAt()` reports `(0, 0)`; `centerAt(5)` with `y` omitted passes the translation
`t.y = 300` to `translateTo` in place of the centre coordinate, and the getter then reports
`(5, 300)`: `x` is as requested and the scale is kept, but the `y` of the centre has moved
from 0 to 300. -/
theorem centerAt_omitted_y_moves_centre :
    (centerAt (sampleState HoverObj.null) none none).1 = MethodResult.value (0, 0) ∧
    (centerAt (sampleState HoverObj.null) (some 5) none).2.2 = [Effect.translateTo 5 300] ∧
    (centerAt (sampleState HoverObj.null) (some 5) none).2.1.zoomTransform.k = 1 ∧
    (centerAt (centerAt (sampleState HoverObj.null) (some 5) none).2.1 none none).1
      = MethodResult.value (5, 300) := by
  norm_num [centerAt, sampleState, d3TranslateTo]

/-- C5: with a canvas in place, a settle notification on a graph of `n` nodes whose current
scale equals `state.lastSetZoom` requests `scaleTo(4 / cbrt n)` and stores that value in
`state.lastSetZoom`; when the current scale differs from `state.lastSetZoom` it requests
nothing and changes nothing. After `init` both are 1, so the first settle applies the
formula, and once a gesture has moved the scale away from the stored value a further settle
requests nothing and changes nothing. -/
theorem settle_autoframe {τ : Type} (cbrt : Nat → ℚ) (s : State τ) (c : CanvasElem)
    (hc : s.canvas = some c) :
    (∀ (tr : τ) (w h : ℚ) (labels : ObjRef → String),
      (init (stateInit tr w h labels)).1.lastSetZoom = 1 ∧
      (init (stateInit tr w h labels)).1.zoomTransform.k = 1 ∧
      (init (stateInit tr w h labels)).1.canvas ≠ none) ∧
    (s.zoomTransform.k = s.lastSetZoom →
      ∃ s1, onFinishLoading cbrt s
          = some (s1, [Effect.scaleTo (4 / cbrt s.forceGraphData.nodes.length)]) ∧
        s1.lastSetZoom = 4 / cbrt s.forceGraphData.nodes.length ∧
        ∀ t : Transform, t.k ≠ 4 / cbrt s.forceGraphData.nodes.length →
          onFinishLoading cbrt (userGesture s1 t) = some (userGesture s1 t, [])) ∧
    (s.zoomTransform.k ≠ s.lastSetZoom → onFinishLoading cbrt s = some (s, [])) := by
  refine ⟨?_, ?_, ?_⟩
  · intro tr w h labels
    simp [init, stateInit, adjustCanvasSize, d3TranslateBy]
  · intro hk
    refine ⟨{ s with
        lastSetZoom := 4 / cbrt s.forceGraphData.nodes.length
        zoomTransform := d3ScaleTo c s.zoomTransform (4 / cbrt s.forceGraphData.nodes.length) },
      ?_, ?_, ?_⟩
    · simp only [onFinishLoading, hc, hk, if_true, ZOOM2NODES_FACTOR]
    · rfl
    · intro t ht
      simp [onFinishLoading, userGesture, hc, ht]
  · intro hk
    simp [onFinishLoading, hc, hk]

/-- The theorem of C5 at the first settle after eight nodes were loaded. -/
theorem settle_autoframe_witness :
    loadedState.canvas = some { width := 800, height := 600 } ∧
    loadedState.zoomTransform.k = loadedState.lastSetZoom ∧
    ∃ s1, onFinishLoading cubeRoot loadedState
        = some (s1, [Effect.scaleTo (4 / cubeRoot loadedState.forceGraphData.nodes.length)]) ∧
      s1.lastSetZoom = 4 / cubeRoot loadedState.forceGraphData.nodes.length ∧
      ∀ t : Transform, t.k ≠ 4 / cubeRoot loadedState.forceGraphData.nodes.length →
        onFinishLoading cubeRoot (userGesture s1 t) = some (userGesture s1 t, []) :=
  ⟨by simp [loadedState, setGraphData, init, stateInit, adjustCanvasSize],
    by simp [loadedState, setGraphData, init, stateInit, adjustCanvasSize, d3TranslateBy],
    (settle_autoframe cubeRoot loadedState { width := 800, height := 600 }
      (by simp [loadedState, setGraphData, init, stateInit, adjustCanvasSize])).2.1
      (by simp [loadedState, setGraphData, init, stateInit, adjustCanvasSize, d3TranslateBy])⟩

/-- C6 as amended: with a canvas in place and `k` within the scale extent, the setter
`zoom(k)` makes the current scale `k` and leaves `state.lastSetZoom` as it was (only the
settle handler writes it); the next settle notification requests `scaleTo(4 / cbrt n)` when
`k` equals the stored `state.lastSetZoom`, and requests nothing and changes nothing when it
does not. -/
theorem zoom_keeps_lastSetZoom {τ : Type} (cbrt : Nat → ℚ) (s : State τ) (c : CanvasElem)
    (k : ℚ) (hc : s.canvas = some c) (hlo : scaleExtentMin ≤ k) (hhi : k ≤ scaleExtentMax) :
    (zoom s (some k)).1 = MethodResult.this ∧
    (zoom s (some k)).2.2 = [Effect.scaleTo k] ∧
    (zoom s (some k)).2.1.zoomTransform.k = k ∧
    (zoom s (some k)).2.1.lastSetZoom = s.lastSetZoom ∧
    (k = s.lastSetZoom →
      ∃ s1, onFinishLoading cbrt (zoom s (some k)).2.1
        = some (s1, [Effect.scaleTo (4 / cbrt s.forceGraphData.nodes.length)])) ∧
    (k ≠ s.lastSetZoom →
      onFinishLoading cbrt (zoom s (some k)).2.1 = some ((zoom s (some k)).2.1, [])) := by
  have hclamp : clampScale k = k := by
    unfold clampScale
    rw [min_eq_right hhi, max_eq_right hlo]
  refine ⟨?_, ?_, ?_, ?_, ?_, ?_⟩
  · simp [zoom, hc]
  · simp [zoom, hc]
  · simp [zoom, hc, d3ScaleTo, hclamp]
  · simp [zoom, hc]
  · intro hk
    subst hk
    refine ⟨{ (zoom s (some s.lastSetZoom)).2.1 with
        lastSetZoom := 4 / cbrt s.forceGraphData.nodes.length
        zoomTransform := d3ScaleTo c (zoom s (some s.lastSetZoom)).2.1.zoomTransform
          (4 / cbrt s.forceGraphData.nodes.length) }, ?_⟩
    simp only [zoom, hc, onFinishLoading, d3ScaleTo, hclamp, if_true, ZOOM2NODES_FACTOR]
  · intro hk
    simp [zoom, hc, onFinishLoading, d3ScaleTo, hclamp, hk]

/-- The theorem of C6 at `zoom(3)` on the loaded 800 x 600 surface, whose stored
`lastSetZoom` is 1: the next settle requests nothing. -/
theorem zoom_keeps_lastSetZoom_witness :
    loadedState.canvas = some { width := 800, height := 600 } ∧
    scaleExtentMin ≤ 3 ∧ (3 : ℚ) ≤ scaleExtentMax ∧
    (3 : ℚ) ≠ loadedState.lastSetZoom ∧
    onFinishLoading cubeRoot (zoom loadedState (some 3)).2.1
      = some ((zoom loadedState (some 3)).2.1, []) :=
  ⟨by simp [loadedState, setGraphData, init, stateInit, adjustCanvasSize],
    by norm_num [scaleExtentMin], by norm_num [scaleExtentMax],
    by norm_num [loadedState, setGraphData, init, stateInit, adjustCanvasSize],
    (zoom_keeps_lastSetZoom cubeRoot loadedState { width := 800, height := 600 } 3
      (by simp [loadedState, setGraphData, init, stateInit, adjustCanvasSize])
      (by norm_num [scaleExtentMin]) (by norm_num [scaleExtentMax])).2.2.2.2.2
      (by norm_num [loadedState, setGraphData, init, stateInit, adjustCanvasSize])⟩

/-- C6 as stated fails: on the loaded 800 x 600 surface (eight nodes, scale 1,
`lastSetZoom` 1) the in-range call `zoom(3)` sets the scale to 3 and leaves `lastSetZoom` at
1, and the settle notification that follows requests no scale at all, where the claim has it
request `scaleTo(4 / cbrt 8) = scaleTo(2)`. -/
theorem zoom_then_settle_counterexample :
    scaleExtentMin ≤ 3 ∧ (3 : ℚ) ≤ scaleExtentMax ∧
    4 / cubeRoot loadedState.forceGraphData.nodes.length = 2 ∧
    (zoom loadedState (some 3)).2.1.zoomTransform.k = 3 ∧
    (zoom loadedState (some 3)).2.1.lastSetZoom = 1 ∧
    (zoom loadedState (some 3)).2.1.zoomTransform.k ≠ (zoom loadedState (some 3)).2.1.lastSetZoom ∧
    (onFinishLoading cubeRoot (zoom loadedState (some 3)).2.1).map Prod.snd = some [] ∧
    (onFinishLoading cubeRoot (zoom loadedState (some 3)).2.1).map Prod.snd
      ≠ some [Effect.scaleTo (4 / cubeRoot loadedState.forceGraphData.nodes.length)] := by
  have h8 : cubeRoot 8 = 2 := by
    have : Nat.findGreatest (fun r => r * r * r ≤ 8) 8 = 2 := by decide
    simp [cubeRoot, this]
  have hclamp : clampScale 3 = 3 := by norm_num [clampScale, scaleExtentMin, scaleExtentMax]
  refine ⟨by norm_num [scaleExtentMin], by norm_num [scaleExtentMax], ?_, ?_, ?_, ?_, ?_, ?_⟩
  · norm_num [loadedState, setGraphData, h8]
  · simp [loadedState, setGraphData, init, stateInit, adjustCanvasSize, zoom, d3ScaleTo, hclamp]
  · simp [loadedState, setGraphData, init, stateInit, adjustCanvasSize, zoom]
  · norm_num [loadedState, setGraphData, init, stateInit, adjustCanvasSize, zoom, d3ScaleTo,
      hclamp]
  · norm_num [loadedState, setGraphData, init, stateInit, adjustCanvasSize, zoom, d3ScaleTo,
      hclamp, onFinishLoading, d3TranslateBy]
  · norm_num [loadedState, setGraphData, init, stateInit, adjustCanvasSize, zoom, d3ScaleTo,
      hclamp, onFinishLoading, d3TranslateBy]

/-! ## Data loading -/

theorem registerEach_calls {τ κ : Type} (ct : ColorTracker τ κ) (type : EntityType)
    (l : List ObjRef) (tr : τ) (h : Heap κ) :
    registerCalls (registerEach ct type l tr h).2.2 = l.length := by
  induction l generalizing tr h with
  | nil => rfl
  | cons d ds ih =>
    have := ih (ct.register tr { ref := h.allocated, type := type, d := d }).2
      { indexColor := Function.update h.indexColor d
          (some (ct.register tr { ref := h.allocated, type := type, d := d }).1)
        allocated := h.allocated + 1 }
    simp only [registerCalls] at this
    simp [registerEach, registerCalls, Effect.isRegister, this]

theorem registerEach_indexColor_of_not_mem {τ κ : Type} (ct : ColorTracker τ κ)
    (type : EntityType) (l : List ObjRef) (tr : τ) (h : Heap κ) (r : ObjRef) (hr : r ∉ l) :
    (registerEach ct type l tr h).2.1.indexColor r = h.indexColor r := by
  induction l generalizing tr h with
  | nil => rfl
  | cons d ds ih =>
    rw [List.mem_cons, not_or] at hr
    simp only [registerEach]
    rw [ih _ _ hr.2]
    exact Function.update_noteq hr.1 _ _

theorem registerEach_isSome_of_mem {τ κ : Type} (ct : ColorTracker τ κ)
    (type : EntityType) (l : List ObjRef) (tr : τ) (h : Heap κ) (r : ObjRef) (hr : r ∈ l) :
    ((registerEach ct type l tr h).2.1.indexColor r).isSome = true := by
  induction l generalizing tr h with
  | nil => simp at hr
  | cons d ds ih =>
    simp only [registerEach]
    by_cases hds : r ∈ ds
    · exact ih _ _ hds
    · have hrd : r = d := by
        rcases List.mem_cons.mp hr with h1 | h1
        · exact h1
        · exact absurd h1 hds
      rw [registerEach_indexColor_of_not_mem ct type ds _ _ r hds, hrd]
      simp

theorem registerEach_mem {τ κ : Type} (ct : ColorTracker τ κ) (type : EntityType)
    (l : List ObjRef) (tr : τ) (h : Heap κ) (e : Entity)
    (he : Effect.register e ∈ (registerEach ct type l tr h).2.2) : e.d ∈ l := by
  induction l generalizing tr h with
  | nil => simp [registerEach] at he
  | cons d ds ih =>
    simp only [registerEach, List.mem_cons] at he
    rcases he with he | he
    · have hed : e = { ref := h.allocated, type := type, d := d } := by
        injection he
      rw [hed]
      exact List.mem_cons_self _ _
    · exact List.mem_cons_of_mem _ (ih _ _ he)

theorem hexIndex_calls {τ κ : Type} (ct : ColorTracker τ κ) (type : EntityType)
    (objs : List ObjRef) (tr : τ) (h : Heap κ) :
    registerCalls (hexIndex ct type objs tr h).2.2
      = (objs.filter (fun d => (h.indexColor d).isNone)).length := by
  unfold hexIndex
  exact registerEach_calls ct type _ tr h

theorem hexIndex_keeps {τ κ : Type} (ct : ColorTracker τ κ) (type : EntityType)
    (objs : List ObjRef) (tr : τ) (h : Heap κ) (r : ObjRef) (c : κ)
    (hr : h.indexColor r = some c) :
    (hexIndex ct type objs tr h).2.1.indexColor r = some c := by
  unfold hexIndex
  rw [registerEach_indexColor_of_not_mem ct type _ tr h r]
  · exact hr
  · intro hmem
    have := (List.mem_filter.mp hmem).2
    simp [hr] at this

theorem hexIndex_register_unstamped {τ κ : Type} (ct : ColorTracker τ κ) (type : EntityType)
    (objs : List ObjRef) (tr : τ) (h : Heap κ) (e : Entity)
    (he : Effect.register e ∈ (hexIndex ct type objs tr h).2.2) :
    h.indexColor e.d = none := by
  unfold hexIndex at he
  have hmem := registerEach_mem ct type _ tr h e he
  have := (List.mem_filter.mp hmem).2
  simpa using this

theorem hexIndex_isNone_iff {τ κ : Type} (ct : ColorTracker τ κ) (type : EntityType)
    (objs : List ObjRef) (tr : τ) (h : Heap κ) (r : ObjRef) :
    ((hexIndex ct type objs tr h).2.1.indexColor r).isNone = true
      ↔ (h.indexColor r).isNone = true ∧ r ∉ objs := by
  unfold hexIndex
  by_cases hmem : r ∈ objs.filter (fun d => (h.indexColor d).isNone)
  · have hsome := registerEach_isSome_of_mem ct type _ tr h r hmem
    have hobjs := (List.mem_filter.mp hmem).1
    constructor
    · intro hnone
      rw [Option.isNone_iff_eq_none] at hnone
      rw [hnone] at hsome
      simp at hsome
    · intro hand
      exact absurd hobjs hand.2
  · rw [registerEach_indexColor_of_not_mem ct type _ tr h r hmem]
    constructor
    · intro hnone
      refine ⟨hnone, ?_⟩
      intro hobjs
      exact hmem (List.mem_filter.mpr ⟨hobjs, hnone⟩)
    · intro hand
      exact hand.1

theorem registerCalls_append (l1 l2 : List Effect) :
    registerCalls (l1 ++ l2) = registerCalls l1 + registerCalls l2 := by
  simp [registerCalls, List.filter_append]

theorem setGraphData_calls {τ κ : Type} (ct : ColorTracker τ κ) (d : GraphData) (s : State τ)
    (h : Heap κ) :
    registerCalls (setGraphData ct d s h).2.2
      = (d.nodes.filter (fun r => (h.indexColor r).isNone)).length
        + (d.links.filter (fun r => (h.indexColor r).isNone && decide (r ∉ d.nodes))).length := by
  have hlinks : d.links.filter
        (fun r => ((hexIndex ct EntityType.Node d.nodes s.colorTracker h).2.1.indexColor r).isNone)
      = d.links.filter (fun r => (h.indexColor r).isNone && decide (r ∉ d.nodes)) := by
    apply List.filter_congr
    intro r _
    rw [Bool.eq_iff_iff, hexIndex_isNone_iff]
    simp
  simp only [setGraphData, registerCalls_append, hexIndex_calls, hlinks]
  split_ifs <;> simp [registerCalls, Effect.isRegister]

theorem setGraphData_isNone_iff {τ κ : Type} (ct : ColorTracker τ κ) (d : GraphData)
    (s : State τ) (h : Heap κ) (r : ObjRef) :
    ((setGraphData ct d s h).2.1.indexColor r).isNone = true
      ↔ (h.indexColor r).isNone = true ∧ r ∉ d.nodes ∧ r ∉ d.links := by
  simp only [setGraphData, hexIndex_isNone_iff]
  tauto

theorem setGraphData_keeps {τ κ : Type} (ct : ColorTracker τ κ) (d : GraphData)
    (s : State τ) (h : Heap κ) (r : ObjRef) (c : κ) (hr : h.indexColor r = some c) :
    (setGraphData ct d s h).2.1.indexColor r = some c ∧
    ∀ e, Effect.register e ∈ (setGraphData ct d s h).2.2 → e.d ≠ r := by
  constructor
  · simp only [setGraphData]
    exact hexIndex_keeps ct _ _ _ _ r c (hexIndex_keeps ct _ _ _ _ r c hr)
  · intro e he hed
    simp only [setGraphData, List.mem_append, List.mem_cons, List.mem_singleton,
      List.not_mem_nil, or_false] at he
    rcases he with ((he | he) | he) | he
    · split_ifs at he <;> simp at he
    · have := hexIndex_register_unstamped ct _ _ _ _ e he
      rw [hed, hr] at this
      exact Option.noConfusion this
    · have := hexIndex_register_unstamped ct _ _ _ _ e he
      rw [hed, hexIndex_keeps ct _ _ _ _ r c hr] at this
      exact Option.noConfusion this
    · rcases he with he | he <;> exact Effect.noConfusion he

theorem filter_not_mem_card (S : Finset ObjRef) (l : List ObjRef) (hl : l.Nodup) :
    S.card + (l.filter (fun r => decide (r ∉ S))).length = (S ∪ l.toFinset).card := by
  have h1 : (l.filter (fun r => decide (r ∉ S))).length = (l.toFinset \ S).card := by
    rw [← List.toFinset_card_of_nodup (hl.filter _)]
    congr 1
    ext r
    simp [List.mem_filter, Finset.mem_sdiff]
  rw [h1, Finset.union_comm, ← Finset.card_sdiff_add_card]
  omega

/-- C3 as amended: when no object occurs twice within one list of an assignment and no
object of the two assignments carries `__indexColor` beforehand, the `register` calls of two
consecutive `graphData` assignments number as many as the distinct objects of the two
assignments together; and an object that carries `__indexColor` when the second assignment
starts keeps that value and is not registered by it. -/
theorem register_once_per_entity {τ κ : Type} (ct : ColorTracker τ κ) (d1 d2 : GraphData)
    (s : State τ) (h : Heap κ)
    (hn1 : d1.nodes.Nodup) (hl1 : d1.links.Nodup) (hn2 : d2.nodes.Nodup) (hl2 : d2.links.Nodup)
    (hfresh : ∀ r ∈ d1.nodes ++ d1.links ++ d2.nodes ++ d2.links, h.indexColor r = none) :
    registerCalls (setGraphData ct d1 s h).2.2
        + registerCalls
            (setGraphData ct d2 (setGraphData ct d1 s h).1 (setGraphData ct d1 s h).2.1).2.2
      = distinctEntities d1 d2 ∧
    ∀ r c, (setGraphData ct d1 s h).2.1.indexColor r = some c →
      (setGraphData ct d2 (setGraphData ct d1 s h).1 (setGraphData ct d1 s h).2.1).2.1.indexColor r
          = some c ∧
        ∀ e, Effect.register e
            ∈ (setGraphData ct d2 (setGraphData ct d1 s h).1 (setGraphData ct d1 s h).2.1).2.2 →
          e.d ≠ r := by
  refine ⟨?_, fun r c hr => setGraphData_keeps ct d2 _ _ r c hr⟩
  have hf : ∀ r, r ∈ d1.nodes ∨ r ∈ d1.links ∨ r ∈ d2.nodes ∨ r ∈ d2.links →
      (h.indexColor r).isNone = true := by
    intro r hr
    rw [hfresh r (by simp only [List.mem_append]; tauto)]
    rfl
  have e1 : d1.nodes.filter (fun r => (h.indexColor r).isNone)
      = d1.nodes.filter (fun r => decide (r ∉ (∅ : Finset ObjRef))) := by
    apply List.filter_congr
    intro r hr
    simp [hf r (Or.inl hr)]
  have e2 : d1.links.filter (fun r => (h.indexColor r).isNone && decide (r ∉ d1.nodes))
      = d1.links.filter (fun r => decide (r ∉ d1.nodes.toFinset)) := by
    apply List.filter_congr
    intro r hr
    simp [hf r (Or.inr (Or.inl hr))]
  have e3 : d2.nodes.filter
        (fun r => ((setGraphData ct d1 s h).2.1.indexColor r).isNone)
      = d2.nodes.filter (fun r => decide (r ∉ (d1.nodes ++ d1.links).toFinset)) := by
    apply List.filter_congr
    intro r hr
    rw [Bool.eq_iff_iff, setGraphData_isNone_iff]
    simp [hf r (Or.inr (Or.inr (Or.inl hr)))]
  have e4 : d2.links.filter
        (fun r => ((setGraphData ct d1 s h).2.1.indexColor r).isNone && decide (r ∉ d2.nodes))
      = d2.links.filter
          (fun r => decide (r ∉ (d1.nodes ++ d1.links ++ d2.nodes).toFinset)) := by
    apply List.filter_congr
    intro r hr
    rw [Bool.eq_iff_iff, Bool.and_eq_true, setGraphData_isNone_iff]
    simp [hf r (Or.inr (Or.inr (Or.inr hr)))]
    tauto
  have c1 := filter_not_mem_card ∅ d1.nodes hn1
  have c2 := filter_not_mem_card d1.nodes.toFinset d1.links hl1
  have c3 := filter_not_mem_card (d1.nodes ++ d1.links).toFinset d2.nodes hn2
  have c4 := filter_not_mem_card (d1.nodes ++ d1.links ++ d2.nodes).toFinset d2.links hl2
  rw [Finset.empty_union, Finset.card_empty] at c1
  rw [← List.toFinset_append] at c2 c3 c4
  rw [setGraphData_calls, setGraphData_calls, e1, e2, e3, e4, distinctEntities]
  omega

/-- The theorem of C3 at two assignments sharing a node and a link: five `register` calls
for five distinct objects, where the lists hold seven entries. -/
theorem register_once_per_entity_witness :
    firstLoad.nodes.Nodup ∧ firstLoad.links.Nodup ∧ secondLoad.nodes.Nodup ∧
    secondLoad.links.Nodup ∧
    (∀ r ∈ firstLoad.nodes ++ firstLoad.links ++ secondLoad.nodes ++ secondLoad.links,
      freshHeap.indexColor r = none) ∧
    registerCalls (setGraphData counterTracker firstLoad startState freshHeap).2.2
        + registerCalls
            (setGraphData counterTracker secondLoad
              (setGraphData counterTracker firstLoad startState freshHeap).1
              (setGraphData counterTracker firstLoad startState freshHeap).2.1).2.2
      = distinctEntities firstLoad secondLoad ∧
    distinctEntities firstLoad secondLoad = 5 :=
  ⟨by decide, by decide, by decide, by decide, fun _ _ => rfl,
    (register_once_per_entity counterTracker firstLoad secondLoad startState freshHeap
      (by decide) (by decide) (by decide) (by decide) (fun _ _ => rfl)).1,
    by decide⟩

/-- C3 as stated fails: on a heap where no object carries `__indexColor`, assigning a node
list that holds the same object twice and then a list holding that object once makes two
`register` calls, while the two assignments hold one distinct object. -/
theorem register_count_counterexample :
    (∀ r, freshHeap.indexColor r = none) ∧
    registerCalls (setGraphData counterTracker repeatedNode startState freshHeap).2.2 = 2 ∧
    registerCalls
        (setGraphData counterTracker singleNode
          (setGraphData counterTracker repeatedNode startState freshHeap).1
          (setGraphData counterTracker repeatedNode startState freshHeap).2.1).2.2 = 0 ∧
    distinctEntities repeatedNode singleNode = 1 ∧
    registerCalls (setGraphData counterTracker repeatedNode startState freshHeap).2.2
        + registerCalls
            (setGraphData counterTracker singleNode
              (setGraphData counterTracker repeatedNode startState freshHeap).1
              (setGraphData counterTracker repeatedNode startState freshHeap).2.1).2.2
      ≠ distinctEntities repeatedNode singleNode := by
  refine ⟨fun _ => rfl, by decide, by decide, by decide, by decide⟩

end ForceGraph
